import Mathlib

/-!
Verification of the Like4Like multi-mode bot (`Run.py`) against its
natural-language specification.  The script is a linear request/response
sequence; we embed it shallowly:

* pure string manipulation (URL templates, regex-style extractions, the
  JSON cookie codec) is translated directly into executable Lean functions;
* every HTTP call is modelled by an `HttpOutcome` oracle: either the
  underlying library raised a transport exception (`exn`) or it delivered a
  response record carrying the fields the code inspects (`ok`, `text`, and
  the parsed-JSON views the code extracts);
* the interactive run loop is modelled as a function from the sequence of
  external outcomes to the trace of observable events (sleeps, the success
  panel, countdown ticks).
-/

/-! ## Basic string machinery (Python `str.startswith`, `in`, `strip`) -/

/-- Here `listStartsWith pre l` is true iff `pre` is a prefix of `l`
(the semantics of Python `str.startswith` on the underlying characters). -/
def listStartsWith : List Char → List Char → Bool
  | [], _ => true
  | _ :: _, [] => false
  | a :: as, b :: bs => a == b && listStartsWith as bs

/-- Python `s.startswith(pre)`. -/
def pyStartsWith (s pre : String) : Bool := listStartsWith pre.data s.data

/-- Here `listHasSub needle hay` is true iff `needle` occurs contiguously in
`hay` (the semantics of Python `needle in hay` on strings). -/
def listHasSub (needle : List Char) : List Char → Bool
  | [] => needle.isEmpty
  | c :: rest => listStartsWith needle (c :: rest) || listHasSub needle rest

/-- Python `needle in hay` on strings. -/
def pyHasSub (needle hay : String) : Bool := listHasSub needle.data hay.data

/-- Python `s.strip()` restricted to its whitespace-trimming behaviour. -/
def pyStrip (s : List Char) : List Char :=
  ((s.dropWhile Char.isWhitespace).reverse.dropWhile Char.isWhitespace).reverse

/-- Numeric value of a decimal digit string (most significant first). -/
def digitsVal (ds : List Char) : Nat :=
  ds.foldl (fun a c => a * 10 + (c.toNat - '0'.toNat)) 0

/-- Python `int(s)` on base-10 literals: optional surrounding whitespace,
an optional sign, then one or more decimal digits; anything else raises
`ValueError`, modelled as `none`. -/
def pyInt (s : String) : Option Int :=
  match pyStrip s.data with
  | '-' :: ds =>
      if !ds.isEmpty && ds.all Char.isDigit then some (-(digitsVal ds : Int)) else none
  | '+' :: ds =>
      if !ds.isEmpty && ds.all Char.isDigit then some (digitsVal ds : Int) else none
  | ds =>
      if !ds.isEmpty && ds.all Char.isDigit then some (digitsVal ds : Int) else none

/-! ## The `FEATURES` table (`Run.py` lines 40-48) -/

/-- One row of the `FEATURES` mapping: the Like4Like feature key, the earn
page used for warm-up, and the `vrsta` (type) tag used by validation. -/
structure FeatureInfo where
  feature : String
  earn : String
  vrsta : String
deriving DecidableEq, Repr

/-- The compiled-in `FEATURES` table mapping a menu choice to its row. -/
def FEATURES : String → Option FeatureInfo
  | "yt_like" => some ⟨"youtube", "/user/earn-youtube.php", "like"⟩
  | "yt_subscribe" => some ⟨"youtubes", "/user/earn-youtube-subscribe.php", "subscribe"⟩
  | "ig_follow" => some ⟨"instagramfol", "/user/earn-instagram-follow.php", "follow"⟩
  | "tw_follow" => some ⟨"twitter", "/user/earn-twitter.php", "follow"⟩
  | "tw_like" => some ⟨"twitterfav", "/user/earn-twitter-favorites.php", "like"⟩
  | "tw_retweet" => some ⟨"twitterret", "/user/earn-twitter-retweet.php", "retweet"⟩
  | _ => none

/-! ## Target URL computation (`Bot.run`, lines 403-415) -/

/-- The target URL the run loop computes from the feature key and the
task's `idlink`, translated branch for branch from `Bot.run`. -/
def targetUrl (feature idlink : String) : String :=
  if feature == "instagramfol" then
    "https://www.instagram.com/" ++ idlink
  else if feature == "twitter" || feature == "twitterfav" || feature == "twitterret" then
    "https://x.com/" ++ idlink
  else if feature == "youtube" || feature == "youtubes" then
    if pyStartsWith idlink "watch?v=" then
      "https://www.youtube.com/" ++ idlink
    else if pyStartsWith idlink "channel/" || pyStartsWith idlink "c/" then
      "https://www.youtube.com/" ++ idlink
    else
      "https://www.youtube.com/watch?v=" ++ idlink
  else
    "https://www.instagram.com/" ++ idlink

/-! ## HTTP model -/

/-- HTTP method of a request the script issues. -/
inductive HttpMethod
  | get
  | post
deriving DecidableEq, Repr

/-- The observable shape of one `requests` call: where it goes and which
timeout keyword (in seconds) it passes, `none` when the call passes no
timeout at all. -/
structure HttpRequest where
  method : HttpMethod
  url : String
  timeout : Option Nat
deriving DecidableEq, Repr

/-- Outcome of one HTTP call: the library raised a transport exception, or
it delivered a response of type `α`. -/
inductive HttpOutcome (α : Type)
  | exn
  | resp (r : α)
deriving DecidableEq, Repr

/-- A plain response: the fields `resp.ok` and `resp.text` the code reads. -/
structure Response where
  ok : Bool
  text : String
deriving DecidableEq, Repr

/-- The `data` record of the user-info endpoint. -/
structure UserData where
  username : String
  credits : Int
deriving DecidableEq, Repr

/-- A user-info response: `jsonData` models the value of
`resp.json().get('data')`, `none` when `.json()` raises or `data` is
absent. -/
structure UserResponse where
  ok : Bool
  text : String
  jsonData : Option UserData

/-- Per-task outcomes of the network calls the run loop makes for one task:
whether `start_task` returned true, whether `check_url` returned true,
whether the platform action returned true, and the credit balance
`validate` returned (`none` when validation failed).  `validate` only ever
returns a nonempty decimal string (see `searchCredits`), so the balance is
carried as the parsed number. -/
structure TaskOutcome where
  started : Bool
  urlOk : Bool
  actionOk : Bool
  validated : Option Nat
deriving DecidableEq, Repr

/-- One element of the task listing: either the JSON record lacks one of
the keys `idlink`/`taskId`/`code3` (raising `KeyError` in the loop), or it
carries the three fields, bundled with the outcomes of the calls the loop
would make for it. -/
inductive TaskItem
  | incomplete
  | complete (idlink taskId code3 : String) (oc : TaskOutcome)
deriving DecidableEq, Repr

/-- A task-listing response: `jsonTasks` models
`resp.json().get('data', {}).get('tasks', [])`, `none` when `.json()`
raises. -/
structure TasksResponse where
  ok : Bool
  text : String
  jsonTasks : Option (List TaskItem)

/-! ## The Like4Like client (`class L4L`, lines 127-239) -/

def L4L.BASE : String := "https://www.like4like.org"

/-- The request `warmup` issues (line 146): a GET on the earn page with no
timeout keyword. -/
def L4L.warmupRequest (earn_path : String) : HttpRequest :=
  ⟨HttpMethod.get, L4L.BASE ++ earn_path, none⟩

/-- Behaviour of `warmup` on the call's outcome: the body is a bare
`session.get` with no `try`, so a transport exception propagates to the
caller (`Except.error`); otherwise the return value is discarded. -/
def L4L.warmup (o : HttpOutcome Response) : Except Unit Unit :=
  match o with
  | HttpOutcome.exn => Except.error ()
  | HttpOutcome.resp _ => Except.ok ()

/-- The request `get_user_info` issues (line 156). -/
def L4L.getUserInfoRequest : HttpRequest :=
  ⟨HttpMethod.get, L4L.BASE ++ "/api/get-user-info.php", some 30⟩

/-- Translation of `get_user_info` (lines 148-162): on a response that is `ok` and whose
body contains `success`, return `resp.json().get('data')`; any exception
(transport or JSON) is caught and yields `None`. -/
def L4L.get_user_info (o : HttpOutcome UserResponse) : Option UserData :=
  match o with
  | HttpOutcome.exn => none
  | HttpOutcome.resp r =>
      if r.ok && pyHasSub "success" r.text then r.jsonData else none

/-- The request `get_tasks` issues (lines 172-173). -/
def L4L.getTasksRequest (feature : String) : HttpRequest :=
  ⟨HttpMethod.get, L4L.BASE ++ "/api/get-tasks.php?feature=" ++ feature, some 30⟩

/-- Translation of `get_tasks` (lines 164-179): on a response that is `ok` and whose body
contains `success`, return the parsed task list; any exception is caught
and yields `None`. -/
def L4L.get_tasks (o : HttpOutcome TasksResponse) : Option (List TaskItem) :=
  match o with
  | HttpOutcome.exn => none
  | HttpOutcome.resp r =>
      if r.ok && pyHasSub "success" r.text then r.jsonTasks else none

/-- The request `start_task` issues (line 185), with the millisecond
timestamp nonce passed in. -/
def L4L.startTaskRequest (idlink taskId feature ts_ms : String) : HttpRequest :=
  ⟨HttpMethod.get,
    L4L.BASE ++ "/api/start-task.php?idzad=" ++ idlink ++ "&vrsta=" ++ feature ++
      "&idcod=" ++ taskId ++ "&feature=" ++ feature ++ "&_=" ++ ts_ms,
    some 30⟩

/-- Translation of `start_task` (lines 181-194): true exactly when the body contains the
literal `"success":true`; `resp.ok` is never consulted; any exception is
caught and yields `False`. -/
def L4L.start_task (o : HttpOutcome Response) : Bool :=
  match o with
  | HttpOutcome.exn => false
  | HttpOutcome.resp r => pyHasSub "\"success\":true" r.text

/-- The request `check_url` issues (line 205). -/
def L4L.checkUrlRequest : HttpRequest :=
  ⟨HttpMethod.post, L4L.BASE ++ "/checkurl.php", some 30⟩

/-- Translation of `check_url` (lines 196-208): `resp.ok and ("http" in resp.text)`; any
exception is caught and yields `False`. -/
def L4L.check_url (o : HttpOutcome Response) : Bool :=
  match o with
  | HttpOutcome.exn => false
  | HttpOutcome.resp r => r.ok && pyHasSub "http" r.text

/-- The request `validate` issues (line 232). -/
def L4L.validateRequest : HttpRequest :=
  ⟨HttpMethod.post, L4L.BASE ++ "/api/validate-task.php", some 30⟩

/-- The literal part of the pattern `"credits":"(\d+)"`. -/
def creditsPat : List Char := "\"credits\":\"".data

/-- Translation of `re.search(r'"credits":"(\d+)"', text)`: scan left to
right for the literal `"credits":"` followed by at least one decimal digit
whose maximal run is immediately followed by the closing quote the pattern
ends with; the capture is that digit run.  (A shorter run cannot match on
backtracking, since the character after it is a digit, not a quote.) -/
def searchCredits : List Char → Option (List Char)
  | [] => none
  | c :: rest =>
      if listStartsWith creditsPat (c :: rest) then
        let after := (c :: rest).drop creditsPat.length
        let ds := after.takeWhile Char.isDigit
        if !ds.isEmpty && listStartsWith ['"'] (after.drop ds.length) then some ds
        else searchCredits rest
      else searchCredits rest

/-- Translation of `validate` (lines 210-239): on a response that is `ok`, whose body
contains both `"success":true` and `"credits"`, return the digit string
captured by the `"credits":"(\d+)"` search (or `None` if it does not
match); otherwise, and on any exception, return `None`. -/
def L4L.validate (o : HttpOutcome Response) : Option String :=
  match o with
  | HttpOutcome.exn => none
  | HttpOutcome.resp r =>
      if r.ok && pyHasSub "\"success\":true" r.text && pyHasSub "\"credits\"" r.text then
        (searchCredits r.text.data).map (fun ds => String.mk ds)
      else none

/-! ## The JSON cookie codec (`json.dump(data, f, indent=2)` / `json.load`)

The credential store holds a flat mapping of string keys to string cookie
values.  We model the standard library's serializer and parser on that
fragment: `jsonDumpFlat` reproduces `json.dump(..., indent=2)`'s layout
(braces, two-space indent, `", "`-free item separator, `": "` key
separator) and its string escaping on the quote, backslash and the common
control characters; `jsonLoadFlat` is a strict parser for flat
string-to-string objects, skipping whitespace between tokens and rejecting
trailing data, with any failure (`json.load` raising) modelled as `none`. -/

/-- JSON string escaping of one character. -/
def escChar (c : Char) : List Char :=
  if c == '"' then ['\\', '"']
  else if c == '\\' then ['\\', '\\']
  else if c == '\n' then ['\\', 'n']
  else if c == '\t' then ['\\', 't']
  else if c == '\r' then ['\\', 'r']
  else [c]

/-- JSON string escaping. -/
def escape (s : List Char) : List Char := s.flatMap escChar

/-- Inverse of `escChar` on the character after a backslash. -/
def unescChar (c : Char) : Option Char :=
  if c == '"' then some '"'
  else if c == '\\' then some '\\'
  else if c == 'n' then some '\n'
  else if c == 't' then some '\t'
  else if c == 'r' then some '\r'
  else none

/-- Parse the body of a JSON string after its opening quote, up to and
including the closing quote; returns the decoded content and the rest of
the input.  Raw control characters are rejected, as in strict `json.load`. -/
def parseStr : List Char → Option (List Char × List Char)
  | [] => none
  | c :: r =>
      if c == '"' then some ([], r)
      else if c == '\\' then
        match r with
        | [] => none
        | d :: r2 =>
            match unescChar d with
            | some e => (parseStr r2).map (fun p => (e :: p.1, p.2))
            | none => none
      else if c == '\n' || c == '\t' || c == '\r' then none
      else (parseStr r).map (fun p => (c :: p.1, p.2))

/-- JSON whitespace. -/
def pwsChar (c : Char) : Bool := c == ' ' || c == '\n' || c == '\t' || c == '\r'

/-- Skip JSON whitespace. -/
def skipWs : List Char → List Char
  | [] => []
  | c :: r => if pwsChar c then skipWs r else c :: r

/-- Skip whitespace, then consume the expected character `c`. -/
def expectChar (c : Char) (cs : List Char) : Option (List Char) :=
  match skipWs cs with
  | [] => none
  | d :: r => if d == c then some r else none

/-- Parse one `"key": "value"` entry (whitespace allowed around tokens);
returns the entry and the rest of the input. -/
def parseKV (cs : List Char) : Option ((List Char × List Char) × List Char) :=
  (expectChar '"' cs).bind fun r =>
  (parseStr r).bind fun kp =>
  (expectChar ':' kp.2).bind fun r2 =>
  (expectChar '"' r2).bind fun r3 =>
  (parseStr r3).map fun vp => ((kp.1, vp.1), vp.2)

/-- Parse the entries of a nonempty flat string-to-string object, starting
at the first key; fuelled by the remaining entry count. -/
def parseEntriesF : Nat → List Char → Option (List (List Char × List Char) × List Char)
  | 0, _ => none
  | fuel + 1, cs =>
      (parseKV cs).bind fun kvr =>
      match expectChar ',' kvr.2 with
      | some r5 => (parseEntriesF fuel r5).map (fun p => (kvr.1 :: p.1, p.2))
      | none =>
          match expectChar '\x7d' kvr.2 with
          | some r5 => some ([kvr.1], r5)
          | none => none

/-- Parse a flat string-to-string JSON object; returns its entries in
textual order and the rest of the input. -/
def parseObject (cs : List Char) : Option (List (List Char × List Char) × List Char) :=
  (expectChar '\x7b' cs).bind fun r =>
  match expectChar '\x7d' r with
  | some r2 => some ([], r2)
  | none => parseEntriesF (cs.length + 1) (skipWs r)

/-- Model of `json.load` on a flat string-to-string object: the whole document must
be one object followed only by whitespace; any other input is a parse
failure (`none`). -/
def jsonLoadFlat (cs : List Char) : Option (List (List Char × List Char)) :=
  match parseObject cs with
  | some (es, rest) => if skipWs rest = [] then some es else none
  | none => none

/-- Render one `"key": "value"` entry. -/
def renderEntry (kv : List Char × List Char) : List Char :=
  '"' :: (escape kv.1 ++ '"' :: ':' :: ' ' :: '"' :: (escape kv.2 ++ ['"']))

/-- Render the entries of a nonempty object, two-space indented, from the
first key to the closing brace. -/
def renderInner : List (List Char × List Char) → List Char
  | [] => ['\n', '\x7d']
  | [e] => renderEntry e ++ ['\n', '\x7d']
  | e :: es => renderEntry e ++ ',' :: '\n' :: ' ' :: ' ' :: renderInner es

/-- Model of `json.dump(m, f, indent=2)` on a flat string-to-string object. -/
def jsonDumpFlat (m : List (List Char × List Char)) : List Char :=
  match m with
  | [] => ['\x7b', '\x7d']
  | _ => '\x7b' :: '\n' :: ' ' :: ' ' :: renderInner m

/-- View a pair of strings as character lists. -/
def entryToChars (kv : String × String) : List Char × List Char :=
  (kv.1.data, kv.2.data)

/-- Rebuild a pair of strings from character lists. -/
def entryOfChars (kv : List Char × List Char) : String × String :=
  (String.mk kv.1, String.mk kv.2)

/-- String-level `json.dump(m, f, indent=2)`. -/
def jsonDump (m : List (String × String)) : String :=
  String.mk (jsonDumpFlat (m.map entryToChars))

/-- String-level `json.load` restricted to flat string-to-string objects. -/
def jsonLoad (s : String) : Option (List (String × String)) :=
  (jsonLoadFlat s.data).map (fun es => es.map entryOfChars)

/-! ## The credential store (`class Store`, lines 60-81) -/

/-- State of the cookies file from `Store`'s point of view: absent,
present but unreadable (any I/O error on `open`/`read`), or present with
the given contents. -/
inductive FileState
  | missing
  | unreadable
  | content (s : String)
deriving DecidableEq, Repr

/-- Translation of `Store.load` (lines 66-75): an absent file yields `{}`; otherwise the
file is opened and parsed inside `try`, and any exception — I/O or JSON —
is caught and yields `{}`. -/
def Store.load (fs : FileState) : List (String × String) :=
  match fs with
  | FileState.missing => []
  | FileState.unreadable => []
  | FileState.content s => (jsonLoad s).getD []

/-- Translation of `Store.save` (lines 77-81): serialize the full mapping with
`json.dump(data, f, indent=2)`, replacing the file's contents. -/
def Store.save (m : List (String × String)) : FileState :=
  FileState.content (jsonDump m)

/-! ## The Instagram follow action (`Actions.instagram_follow`, lines 262-302) -/

/-- Python `s.strip('/')`. -/
def stripSlashes (s : String) : String :=
  String.mk (((s.data.dropWhile (fun c => c == '/')).reverse.dropWhile
    (fun c => c == '/')).reverse)

/-- The username extracted on line 271:
`username_or_url.replace('https://www.instagram.com/', '').strip('/')`. -/
def igUsername (username_or_url : String) : String :=
  stripSlashes (username_or_url.replace "https://www.instagram.com/" "")

/-- The literal part of the pattern `"profilePage_(\d+)"`. -/
def profilePat : List Char := "\"profilePage_".data

/-- Translation of `re.search(r'"profilePage_(\d+)"', html)`: scan for the literal
`"profilePage_` followed by at least one digit whose maximal run is
immediately followed by a closing quote; the capture is that digit run. -/
def searchProfileId : List Char → Option (List Char)
  | [] => none
  | c :: rest =>
      if listStartsWith profilePat (c :: rest) then
        let after := (c :: rest).drop profilePat.length
        let ds := after.takeWhile Char.isDigit
        if !ds.isEmpty && listStartsWith ['"'] (after.drop ds.length) then some ds
        else searchProfileId rest
      else searchProfileId rest

/-- The literal part of the pattern `csrftoken=([^;]+);`. -/
def csrfPat : List Char := "csrftoken=".data

/-- Translation of `re.search(r'csrftoken=([^;]+);', cookies)`: scan for the literal
`csrftoken=` followed by at least one non-semicolon character and then a
semicolon; the capture is the run up to that first semicolon. -/
def searchCsrf : List Char → Option (List Char)
  | [] => none
  | c :: rest =>
      if listStartsWith csrfPat (c :: rest) then
        let after := (c :: rest).drop csrfPat.length
        let tok := after.takeWhile (fun d => d != ';')
        if !tok.isEmpty && listStartsWith [';'] (after.drop tok.length) then some tok
        else searchCsrf rest
      else searchCsrf rest

/-- External world of one `instagram_follow` run: the outcome of the
profile-page GET (`none` models a transport exception, `some html` the
page body) and of the follow POST (`none` models an exception, `some ok`
the response's `rf.ok`). -/
structure IgWorld where
  profileResp : Option String
  followResp : Option Bool
deriving DecidableEq, Repr

/-- Result of `instagram_follow`, instrumented with whether control
reached the follow POST at all. -/
structure IgResult where
  success : Bool
  postSent : Bool
deriving DecidableEq, Repr

/-- Translation of `Actions.instagram_follow` (lines 262-302): GET the profile page,
scrape the `profilePage_(\d+)` identifier, scrape the `csrftoken` from the
cookie string; a failure of either scrape returns `False` before any
follow request is made; otherwise POST the follow and return `rf.ok`.
The whole body sits in one `try`, so every exception yields `False`. -/
def Actions.instagram_follow (_username_or_url cookies_instagram : String)
    (w : IgWorld) : IgResult :=
  match w.profileResp with
  | none => ⟨false, false⟩
  | some html =>
      match searchProfileId html.data with
      | none => ⟨false, false⟩
      | some _ =>
          match searchCsrf cookies_instagram.data with
          | none => ⟨false, false⟩
          | some _ =>
              match w.followResp with
              | none => ⟨false, true⟩
              | some rfOk => ⟨rfOk, true⟩

/-! ## The run loop (`Bot.run`, lines 329-465) -/

/-- Observable events of the run loop. -/
inductive Event
  | sleep (secs : Nat)
  | success (feature vrsta target : String) (credits : Nat)
  | tick (m s : Nat)
deriving DecidableEq, Repr

/-- Result of one pass over a task listing. -/
structure PassResult where
  processedAny : Bool
  credits : Option Nat
  events : List Event
deriving DecidableEq, Repr

/-- The `for t in tasks` pass (lines 386-453), translated clause for
clause: a task with a missing key, a failed start, a failed URL check, or
a failed platform action sleeps 10 seconds and moves to the next task; a
task whose action succeeds sleeps 10 seconds and validates; on validation
success the balance is updated, the success panel is shown and the pass
stops (`break`); on validation failure the loop sleeps another 10 seconds
and moves on. -/
def processTasks (feature vrsta : String) : List TaskItem → PassResult
  | [] => ⟨false, none, []⟩
  | TaskItem.incomplete :: rest =>
      let r := processTasks feature vrsta rest
      ⟨r.processedAny, r.credits, Event.sleep 10 :: r.events⟩
  | TaskItem.complete idlink _taskId _code3 oc :: rest =>
      if !oc.started then
        let r := processTasks feature vrsta rest
        ⟨r.processedAny, r.credits, Event.sleep 10 :: r.events⟩
      else if !oc.urlOk then
        let r := processTasks feature vrsta rest
        ⟨r.processedAny, r.credits, Event.sleep 10 :: r.events⟩
      else if !oc.actionOk then
        let r := processTasks feature vrsta rest
        ⟨r.processedAny, r.credits, Event.sleep 10 :: r.events⟩
      else
        match oc.validated with
        | some n =>
            ⟨true, some n,
              [Event.sleep 10, Event.success feature vrsta (targetUrl feature idlink) n]⟩
        | none =>
            let r := processTasks feature vrsta rest
            ⟨r.processedAny, r.credits, Event.sleep 10 :: Event.sleep 10 :: r.events⟩

/-- The inter-cycle countdown (lines 457-462): while `total > 0`, render
`divmod(total, 60)` and sleep one second, then decrement. -/
def countdown : Nat → List Event
  | 0 => []
  | n + 1 => Event.tick ((n + 1) / 60) ((n + 1) % 60) :: Event.sleep 1 :: countdown n

/-- The delay read at startup (lines 352-355): `int(...)` of the entered
text, defaulting to 60 on `ValueError`. -/
def delayOf (input : String) : Int := (pyInt input).getD 60

/-- One iteration of the `while True` loop (lines 374-465): warm up, fetch
the task listing; a missing or empty listing sleeps 10 seconds and
restarts; otherwise run the task pass, then either count down the
configured delay (if some task was validated) or sleep a flat 10 seconds. -/
def loopIter (feature vrsta : String) (delay : Int)
    (tasks : Option (List TaskItem)) : List Event :=
  match tasks with
  | none => [Event.sleep 10]
  | some [] => [Event.sleep 10]
  | some ts =>
      let r := processTasks feature vrsta ts
      r.events ++ (if r.processedAny then countdown delay.toNat else [Event.sleep 10])

/-- The whole loop over a sequence of task-listing fetches: every
iteration starts from a fresh listing (the `continue` always returns to
the fetch at the top of the `while True` body). -/
def runLoop (feature vrsta : String) (delay : Int) :
    List (Option (List TaskItem)) → List Event
  | [] => []
  | t :: rest => loopIter feature vrsta delay t ++ runLoop feature vrsta delay rest

/-- Whether one listed task makes it all the way to a successful
validation (the `break` on line 449). -/
def validatesB : TaskItem → Bool
  | TaskItem.incomplete => false
  | TaskItem.complete _ _ _ oc =>
      oc.started && oc.urlOk && oc.actionOk && oc.validated.isSome

/-- The events contributed by a task that does not reach a successful
validation: one 10-second sleep at whichever step fails first, preceded by
the fixed pre-validation sleep when the platform action succeeded. -/
def skipEvents : TaskItem → List Event
  | TaskItem.incomplete => [Event.sleep 10]
  | TaskItem.complete _ _ _ oc =>
      if oc.started && oc.urlOk && oc.actionOk then [Event.sleep 10, Event.sleep 10]
      else [Event.sleep 10]

/-! ## Startup verification (`Bot.run`, lines 329-343) -/

/-- What the startup sequence did: whether the run proceeds, how many
times it prompted for replacement Like4Like cookies, and how many
user-info calls it made. -/
structure StartupResult where
  proceeds : Bool
  prompts : Nat
  calls : Nat
deriving DecidableEq, Repr

/-- The startup check (lines 334-343): call `get_user_info`; if it fails,
prompt for new cookies and retry exactly once; if the retry also fails,
report and return (no further retries).  `o1`/`o2` are the outcomes of the
first and (potential) second user-info calls. -/
def startup (o1 o2 : HttpOutcome UserResponse) : StartupResult :=
  match L4L.get_user_info o1 with
  | some _ => ⟨true, 0, 1⟩
  | none =>
      match L4L.get_user_info o2 with
      | some _ => ⟨true, 1, 2⟩
      | none => ⟨false, 1, 2⟩

/-! # Theorems

First a collection of helper lemmas about the JSON codec, the scanning
functions and the run loop; the claim theorems follow at the end. -/

theorem skipWs_ws (c : Char) (r : List Char) (h : pwsChar c = true) :
    skipWs (c :: r) = skipWs r := by
  simp [skipWs, h]

theorem skipWs_nonws (c : Char) (r : List Char) (h : pwsChar c = false) :
    skipWs (c :: r) = c :: r := by
  simp [skipWs, h]

theorem skipWs_idem (l : List Char) : skipWs (skipWs l) = skipWs l := by
  induction l with
  | nil => rfl
  | cons c r ih =>
      cases hc : pwsChar c with
      | true => rw [skipWs_ws c r hc]; exact ih
      | false => rw [skipWs_nonws c r hc, skipWs_nonws c r hc]

theorem escape_cons (c : Char) (s : List Char) :
    escape (c :: s) = escChar c ++ escape s := by
  simp [escape]

theorem parseStr_escape (s : List Char) : ∀ r : List Char,
    parseStr (escape s ++ '"' :: r) = some (s, r) := by
  induction s with
  | nil =>
      intro r
      have h : escape [] = [] := rfl
      rw [h, List.nil_append, parseStr.eq_def]
      simp
  | cons c s ih =>
      intro r
      rw [escape_cons, List.append_assoc]
      by_cases h1 : c = '"'
      · subst h1
        rw [show escChar '"' = ['\\', '"'] from rfl, List.cons_append, List.cons_append,
          List.nil_append, parseStr.eq_def]
        simp [unescChar, ih]
      · by_cases h2 : c = '\\'
        · subst h2
          rw [show escChar '\\' = ['\\', '\\'] from rfl, List.cons_append, List.cons_append,
            List.nil_append, parseStr.eq_def]
          simp [unescChar, ih]
        · by_cases h3 : c = '\n'
          · subst h3
            rw [show escChar '\n' = ['\\', 'n'] from rfl, List.cons_append, List.cons_append,
              List.nil_append, parseStr.eq_def]
            simp [unescChar, ih]
          · by_cases h4 : c = '\t'
            · subst h4
              rw [show escChar '\t' = ['\\', 't'] from rfl, List.cons_append, List.cons_append,
                List.nil_append, parseStr.eq_def]
              simp [unescChar, ih]
            · by_cases h5 : c = '\r'
              · subst h5
                rw [show escChar '\r' = ['\\', 'r'] from rfl, List.cons_append, List.cons_append,
                  List.nil_append, parseStr.eq_def]
                simp [unescChar, ih]
              · have he : escChar c = [c] := by
                  simp [escChar, h1, h2, h3, h4, h5]
                rw [he, List.cons_append, List.nil_append]
                have hb1 : (c == '"') = false := by simpa using h1
                have hb2 : (c == '\\') = false := by simpa using h2
                have hb3 : (c == '\n') = false := by simpa using h3
                have hb4 : (c == '\t') = false := by simpa using h4
                have hb5 : (c == '\r') = false := by simpa using h5
                rw [parseStr.eq_def]
                simp [hb1, hb2, hb3, hb4, hb5, ih]

theorem parseKV_render (k v r : List Char) :
    parseKV (renderEntry (k, v) ++ r) = some ((k, v), r) := by
  have hshape : renderEntry (k, v) ++ r =
      '"' :: (escape k ++ '"' :: (':' :: ' ' :: '"' :: (escape v ++ '"' :: r))) := by
    simp [renderEntry]
  rw [hshape]
  simp [parseKV, expectChar, skipWs, pwsChar, parseStr_escape]

theorem parseKV_skipWs (cs : List Char) : parseKV cs = parseKV (skipWs cs) := by
  simp [parseKV, expectChar, skipWs_idem]

theorem parseEntriesF_skipWs (fuel : Nat) (cs : List Char) :
    parseEntriesF fuel cs = parseEntriesF fuel (skipWs cs) := by
  cases fuel with
  | zero => rfl
  | succ f =>
      rw [parseEntriesF.eq_def]
      rw [show parseEntriesF (f + 1) (skipWs cs) =
        ((parseKV (skipWs cs)).bind fun kvr =>
          match expectChar ',' kvr.2 with
          | some r5 => (parseEntriesF f r5).map (fun p => (kvr.1 :: p.1, p.2))
          | none =>
              match expectChar '\x7d' kvr.2 with
              | some r5 => some ([kvr.1], r5)
              | none => none) from by rw [parseEntriesF.eq_def]]
      rw [← parseKV_skipWs]

theorem renderInner_cons_head (e : List Char × List Char)
    (es : List (List Char × List Char)) :
    ∃ l, renderInner (e :: es) = '"' :: l := by
  cases e with
  | mk k v =>
      cases es with
      | nil =>
          exact ⟨escape k ++ '"' :: (':' :: ' ' :: '"' :: (escape v ++ '"' :: ['\n', '\x7d'])),
            by simp [renderInner, renderEntry]⟩
      | cons f es' =>
          exact ⟨escape k ++ '"' :: (':' :: ' ' :: '"' :: (escape v ++ '"' ::
            (',' :: '\n' :: ' ' :: ' ' :: renderInner (f :: es')))),
            by simp [renderInner, renderEntry]⟩

theorem parseEntriesF_succ (f : Nat) (cs : List Char) :
    parseEntriesF (f + 1) cs =
      ((parseKV cs).bind fun kvr =>
        match expectChar ',' kvr.2 with
        | some r5 => (parseEntriesF f r5).map (fun p => (kvr.1 :: p.1, p.2))
        | none =>
            match expectChar '\x7d' kvr.2 with
            | some r5 => some ([kvr.1], r5)
            | none => none) := by
  rw [parseEntriesF.eq_def]

theorem parseEntriesF_render :
    ∀ (es : List (List Char × List Char)) (fuel : Nat), es ≠ [] → es.length ≤ fuel →
      parseEntriesF fuel (renderInner es) = some (es, []) := by
  intro es
  induction es with
  | nil => intro fuel h _; exact absurd rfl h
  | cons e es' ih =>
      intro fuel _ hlen
      obtain ⟨f, rfl⟩ : ∃ f, fuel = f + 1 := by
        cases fuel with
        | zero => simp at hlen
        | succ f => exact ⟨f, rfl⟩
      cases e with
      | mk k v =>
          cases es' with
          | nil =>
              rw [show renderInner [(k, v)] = renderEntry (k, v) ++ ['\n', '\x7d'] from rfl]
              rw [parseEntriesF_succ]
              rw [parseKV_render k v ['\n', '\x7d']]
              simp [expectChar, skipWs, pwsChar]
          | cons g es'' =>
              rw [show renderInner ((k, v) :: g :: es'') =
                renderEntry (k, v) ++ ',' :: '\n' :: ' ' :: ' ' :: renderInner (g :: es'')
                from rfl]
              rw [parseEntriesF_succ]
              rw [parseKV_render k v (',' :: '\n' :: ' ' :: ' ' :: renderInner (g :: es'')),
                Option.some_bind]
              have hcomma : expectChar ','
                  (',' :: '\n' :: ' ' :: ' ' :: renderInner (g :: es'')) =
                  some ('\n' :: ' ' :: ' ' :: renderInner (g :: es'')) := by
                simp [expectChar, skipWs, pwsChar]
              rw [hcomma]
              obtain ⟨l, hl⟩ := renderInner_cons_head g es''
              have hskip : skipWs ('\n' :: ' ' :: ' ' :: renderInner (g :: es'')) =
                  renderInner (g :: es'') := by
                rw [skipWs_ws _ _ (by decide), skipWs_ws _ _ (by decide),
                  skipWs_ws _ _ (by decide), hl, skipWs_nonws _ _ (by decide)]
              have hrec : parseEntriesF f ('\n' :: ' ' :: ' ' :: renderInner (g :: es'')) =
                  some (g :: es'', []) := by
                rw [parseEntriesF_skipWs, hskip]
                exact ih f (by simp) (by simpa using Nat.le_of_succ_le_succ hlen)
              simp [hrec]

theorem renderInner_length (es : List (List Char × List Char)) :
    es.length ≤ (renderInner es).length := by
  induction es with
  | nil => simp [renderInner]
  | cons e es' ih =>
      cases e with
      | mk k v =>
          cases es' with
          | nil => simp [renderInner, renderEntry]
          | cons g es'' =>
              rw [show renderInner ((k, v) :: g :: es'') =
                renderEntry (k, v) ++ ',' :: '\n' :: ' ' :: ' ' :: renderInner (g :: es'')
                from rfl]
              simp only [List.length_append, List.length_cons]
              have h1 : 1 ≤ (renderEntry (k, v)).length := by
                simp [renderEntry]
              have h2 : es''.length + 1 ≤ (renderInner (g :: es'')).length := by
                simpa using ih
              omega

theorem jsonLoadFlat_dumpFlat (m : List (List Char × List Char)) :
    jsonLoadFlat (jsonDumpFlat m) = some m := by
  cases m with
  | nil => rfl
  | cons e es =>
      cases e with
      | mk k v =>
          obtain ⟨l, hl⟩ := renderInner_cons_head (k, v) es
          have hdump : jsonDumpFlat ((k, v) :: es) =
              '\x7b' :: '\n' :: ' ' :: ' ' :: renderInner ((k, v) :: es) := rfl
          rw [jsonLoadFlat, parseObject, hdump]
          have hopen : expectChar '\x7b'
              ('\x7b' :: '\n' :: ' ' :: ' ' :: renderInner ((k, v) :: es)) =
              some ('\n' :: ' ' :: ' ' :: renderInner ((k, v) :: es)) := by
            simp [expectChar, skipWs, pwsChar]
          rw [hopen, Option.some_bind]
          have hskip : skipWs ('\n' :: ' ' :: ' ' :: renderInner ((k, v) :: es)) =
              renderInner ((k, v) :: es) := by
            rw [skipWs_ws _ _ (by decide), skipWs_ws _ _ (by decide),
              skipWs_ws _ _ (by decide), hl, skipWs_nonws _ _ (by decide)]
          have hclose : expectChar '\x7d'
              ('\n' :: ' ' :: ' ' :: renderInner ((k, v) :: es)) = none := by
            rw [expectChar, hskip, hl]
            simp
          rw [hclose, hskip]
          have hfuel : ((k, v) :: es).length ≤
              ('\x7b' :: '\n' :: ' ' :: ' ' :: renderInner ((k, v) :: es)).length + 1 := by
            have h := renderInner_length ((k, v) :: es)
            simp only [List.length_cons] at h ⊢
            omega
          rw [parseEntriesF_render ((k, v) :: es) _ (by simp) hfuel]
          rfl

theorem jsonLoad_dump (m : List (String × String)) : jsonLoad (jsonDump m) = some m := by
  rw [jsonLoad, jsonDump]
  rw [show (String.mk (jsonDumpFlat (m.map entryToChars))).data
        = jsonDumpFlat (m.map entryToChars) from rfl]
  rw [jsonLoadFlat_dumpFlat]
  have hid : ∀ kv : String × String, entryOfChars (entryToChars kv) = kv := by
    intro kv; cases kv; rfl
  simp [List.map_map, Function.comp_def, hid]

/-! ## Helper lemmas for the scanning functions -/

theorem listStartsWith_eq (p : List Char) : ∀ l : List Char,
    listStartsWith p l = true → l = p ++ l.drop p.length := by
  induction p with
  | nil => intro l _; simp
  | cons a p ih =>
      intro l h
      cases l with
      | nil => simp [listStartsWith] at h
      | cons b bs =>
          rw [listStartsWith] at h
          simp only [Bool.and_eq_true] at h
          obtain ⟨hab, hp⟩ := h
          have hab' : a = b := by simpa using hab
          subst hab'
          simp only [List.length_cons, List.drop_succ_cons, List.cons_append,
            List.cons.injEq, true_and]
          exact ih bs hp

theorem takeWhile_all (p : Char → Bool) : ∀ l : List Char,
    (l.takeWhile p).all p = true := by
  intro l
  induction l with
  | nil => rfl
  | cons c r ih =>
      rw [List.takeWhile]
      cases hc : p c with
      | true => simp [hc, ih]
      | false => rfl

theorem take_takeWhile (p : Char → Bool) : ∀ l : List Char,
    l.take (l.takeWhile p).length = l.takeWhile p := by
  intro l
  induction l with
  | nil => rfl
  | cons c r ih =>
      cases hc : p c with
      | true => simp [List.takeWhile_cons, hc, ih]
      | false => simp [List.takeWhile_cons, hc]

theorem searchCredits_sound : ∀ t ds : List Char, searchCredits t = some ds →
    ds ≠ [] ∧ ds.all Char.isDigit = true ∧
      ∃ pre suf, t = pre ++ creditsPat ++ ds ++ '"' :: suf := by
  intro t
  induction t with
  | nil => intro ds h; simp [searchCredits] at h
  | cons c rest ih =>
      intro ds h
      rw [searchCredits] at h
      by_cases hs : listStartsWith creditsPat (c :: rest) = true
      · simp only [hs, if_true] at h
        set after := (c :: rest).drop creditsPat.length with hafter
        set ds0 := after.takeWhile Char.isDigit with hds0
        by_cases hq : (!ds0.isEmpty && listStartsWith ['"'] (after.drop ds0.length)) = true
        · simp only [hq, if_true, Option.some.injEq] at h
          subst h
          simp only [Bool.and_eq_true] at hq
          obtain ⟨hne, hquote⟩ := hq
          refine ⟨?_, ?_, [], (after.drop ds0.length).drop 1, ?_⟩
          · intro hnil
            rw [hnil] at hne
            simp at hne
          · rw [hds0]
            exact takeWhile_all Char.isDigit after
          · have e1 : c :: rest = creditsPat ++ after := by
              have h1 := listStartsWith_eq creditsPat (c :: rest) hs
              rw [← hafter] at h1
              exact h1
            have e2 : after = ds0 ++ after.drop ds0.length := by
              conv_lhs => rw [← List.take_append_drop ds0.length after]
              congr 1
              rw [hds0]
              exact take_takeWhile Char.isDigit after
            have e3 : after.drop ds0.length = '"' :: (after.drop ds0.length).drop 1 := by
              have h3 := listStartsWith_eq ['"'] (after.drop ds0.length) hquote
              simpa using h3
            calc c :: rest = creditsPat ++ after := e1
              _ = creditsPat ++ (ds0 ++ after.drop ds0.length) := by rw [← e2]
              _ = creditsPat ++ (ds0 ++ ('"' :: (after.drop ds0.length).drop 1)) := by
                  rw [← e3]
              _ = [] ++ creditsPat ++ ds0 ++ '"' :: (after.drop ds0.length).drop 1 := by
                  simp [List.append_assoc]
        · have hq' : (!ds0.isEmpty && listStartsWith ['"'] (after.drop ds0.length)) = false := by
            revert hq
            cases (!ds0.isEmpty && listStartsWith ['"'] (after.drop ds0.length)) <;> simp
          simp only [hq', Bool.false_eq_true, if_false] at h
          obtain ⟨h1, h2, pre, suf, h3⟩ := ih ds h
          exact ⟨h1, h2, c :: pre, suf, by rw [h3]; rfl⟩
      · have hs' : listStartsWith creditsPat (c :: rest) = false := by
          revert hs; cases listStartsWith creditsPat (c :: rest) <;> simp
        simp only [hs', if_false, Bool.false_eq_true] at h
        obtain ⟨h1, h2, pre, suf, h3⟩ := ih ds h
        exact ⟨h1, h2, c :: pre, suf, by rw [h3]; rfl⟩

/-! ## Helper lemmas for the run loop -/

theorem processTasks_cons_skip (feature vrsta : String) (x : TaskItem)
    (rest : List TaskItem) (hx : validatesB x = false) :
    processTasks feature vrsta (x :: rest) =
      ⟨(processTasks feature vrsta rest).processedAny,
        (processTasks feature vrsta rest).credits,
        skipEvents x ++ (processTasks feature vrsta rest).events⟩ := by
  cases x with
  | incomplete => simp [processTasks, skipEvents]
  | complete idlink taskId code3 oc =>
      rcases oc with ⟨st, u, a, vd⟩
      simp only [validatesB] at hx
      cases st <;> cases u <;> cases a <;> cases vd <;>
        simp_all [processTasks, skipEvents]

theorem processTasks_append_skip (feature vrsta : String) :
    ∀ (pre rest : List TaskItem), (∀ x ∈ pre, validatesB x = false) →
      processTasks feature vrsta (pre ++ rest) =
        ⟨(processTasks feature vrsta rest).processedAny,
          (processTasks feature vrsta rest).credits,
          pre.flatMap skipEvents ++ (processTasks feature vrsta rest).events⟩ := by
  intro pre
  induction pre with
  | nil => intro rest _; simp
  | cons x pre' ih =>
      intro rest hpre
      rw [List.cons_append,
        processTasks_cons_skip feature vrsta x (pre' ++ rest) (hpre x (by simp)),
        ih rest (fun y hy => hpre y (by simp [hy]))]
      simp [List.append_assoc]

theorem processTasks_validated (feature vrsta idlink taskId code3 : String)
    (n : Nat) (post : List TaskItem) :
    processTasks feature vrsta
        (TaskItem.complete idlink taskId code3 ⟨true, true, true, some n⟩ :: post) =
      ⟨true, some n,
        [Event.sleep 10, Event.success feature vrsta (targetUrl feature idlink) n]⟩ := by
  simp [processTasks]

theorem loopIter_some (feature vrsta : String) (delay : Int) (ts : List TaskItem) :
    loopIter feature vrsta delay (some ts) =
      (processTasks feature vrsta ts).events ++
        (if (processTasks feature vrsta ts).processedAny then countdown delay.toNat
          else [Event.sleep 10]) := by
  cases ts with
  | nil => simp [loopIter, processTasks]
  | cons t rest =>
      rw [loopIter]
      simp

theorem countdown_eq (n : Nat) :
    countdown n = (List.range n).reverse.flatMap
      (fun k => [Event.tick ((k + 1) / 60) ((k + 1) % 60), Event.sleep 1]) := by
  induction n with
  | zero => rfl
  | succ m ih =>
      rw [countdown, List.range_succ, List.reverse_append, ih]
      simp

/-! ## Claim theorems -/

/-- C1: for every state of the file system, `Store.load` returns the
persisted mapping when the cookies file exists and parses as a flat
string-to-string JSON object, and — being a total function, it can raise
nothing — returns the empty mapping when the file is missing, when reading
it fails, or when its contents fail to parse. -/
theorem claim_C1 :
    Store.load FileState.missing = [] ∧
    Store.load FileState.unreadable = [] ∧
    (∀ s : String, jsonLoad s = none → Store.load (FileState.content s) = []) ∧
    (∀ (s : String) (m : List (String × String)),
      jsonLoad s = some m → Store.load (FileState.content s) = m) := by
  refine ⟨rfl, rfl, ?_, ?_⟩
  · intro s h
    simp [Store.load, h]
  · intro s m h
    simp [Store.load, h]

/-- Witness for C1: a corrupt file yields the empty mapping and a
well-formed file yields its contents. -/
theorem claim_C1_witness :
    Store.load (FileState.content "corrupt\x7b") = [] ∧
    Store.load (FileState.content "\x7b\n  \"Cookies_Like4Like\": \"sess=1\"\n\x7d") =
      [("Cookies_Like4Like", "sess=1")] :=
  ⟨claim_C1.2.2.1 "corrupt\x7b" (by decide),
    claim_C1.2.2.2 "\x7b\n  \"Cookies_Like4Like\": \"sess=1\"\n\x7d"
      [("Cookies_Like4Like", "sess=1")] (by decide)⟩

/-- C2: `Store.save` followed by `Store.load` returns a mapping equal to
the one saved, for any mapping of string keys to string values. -/
theorem claim_C2 (m : List (String × String)) : Store.load (Store.save m) = m := by
  simp [Store.save, Store.load, jsonLoad_dump]

/-- C3: for each of the six task types the run loop's target URL follows
the per-platform template, and for the two YouTube features an identifier
that already starts with `watch?v=`, `channel/` or `c/` is appended to the
YouTube host verbatim while any other identifier is wrapped as
`watch?v=<id>`. -/
theorem claim_C3 (idlink : String) :
    FEATURES "ig_follow" = some ⟨"instagramfol", "/user/earn-instagram-follow.php", "follow"⟩ ∧
    FEATURES "tw_follow" = some ⟨"twitter", "/user/earn-twitter.php", "follow"⟩ ∧
    FEATURES "tw_like" = some ⟨"twitterfav", "/user/earn-twitter-favorites.php", "like"⟩ ∧
    FEATURES "tw_retweet" = some ⟨"twitterret", "/user/earn-twitter-retweet.php", "retweet"⟩ ∧
    FEATURES "yt_like" = some ⟨"youtube", "/user/earn-youtube.php", "like"⟩ ∧
    FEATURES "yt_subscribe" =
      some ⟨"youtubes", "/user/earn-youtube-subscribe.php", "subscribe"⟩ ∧
    targetUrl "instagramfol" idlink = "https://www.instagram.com/" ++ idlink ∧
    targetUrl "twitter" idlink = "https://x.com/" ++ idlink ∧
    targetUrl "twitterfav" idlink = "https://x.com/" ++ idlink ∧
    targetUrl "twitterret" idlink = "https://x.com/" ++ idlink ∧
    ((pyStartsWith idlink "watch?v=" || pyStartsWith idlink "channel/" ||
        pyStartsWith idlink "c/") = true →
      targetUrl "youtube" idlink = "https://www.youtube.com/" ++ idlink ∧
      targetUrl "youtubes" idlink = "https://www.youtube.com/" ++ idlink) ∧
    ((pyStartsWith idlink "watch?v=" || pyStartsWith idlink "channel/" ||
        pyStartsWith idlink "c/") = false →
      targetUrl "youtube" idlink = "https://www.youtube.com/watch?v=" ++ idlink ∧
      targetUrl "youtubes" idlink = "https://www.youtube.com/watch?v=" ++ idlink) := by
  refine ⟨rfl, rfl, rfl, rfl, rfl, rfl, by simp +decide [targetUrl],
    by simp +decide [targetUrl], by simp +decide [targetUrl],
    by simp +decide [targetUrl], ?_, ?_⟩
  · intro h
    cases hw : pyStartsWith idlink "watch?v=" with
    | true => constructor <;> simp +decide [targetUrl, hw]
    | false =>
        have hbc : (pyStartsWith idlink "channel/" || pyStartsWith idlink "c/") = true := by
          rw [hw] at h
          simpa using h
        constructor <;> simp +decide [targetUrl, hw, hbc]
  · intro h
    simp only [Bool.or_eq_false_iff] at h
    obtain ⟨⟨h1, h2⟩, h3⟩ := h
    constructor <;> simp +decide [targetUrl, h1, h2, h3]

/-- Witness for C3: representative identifiers for each YouTube branch. -/
theorem claim_C3_witness :
    targetUrl "youtube" "watch?v=abc" = "https://www.youtube.com/watch?v=abc" ∧
    targetUrl "youtubes" "channel/UC1" = "https://www.youtube.com/channel/UC1" ∧
    targetUrl "youtube" "c/somebody" = "https://www.youtube.com/c/somebody" ∧
    targetUrl "youtubes" "dQw4w9WgXcQ" = "https://www.youtube.com/watch?v=dQw4w9WgXcQ" :=
  ⟨((claim_C3 "watch?v=abc").2.2.2.2.2.2.2.2.2.2.1 (by decide)).1,
    ((claim_C3 "channel/UC1").2.2.2.2.2.2.2.2.2.2.1 (by decide)).2,
    ((claim_C3 "c/somebody").2.2.2.2.2.2.2.2.2.2.1 (by decide)).1,
    ((claim_C3 "dQw4w9WgXcQ").2.2.2.2.2.2.2.2.2.2.2 (by decide)).2⟩

/-- Counterexample for C4: `warmup` is one of the six listed operations,
yet its request carries no timeout at all (in particular not the claimed
30 seconds), and a transport exception raised inside it propagates to the
caller instead of being swallowed. -/
theorem claim_C4_cex :
    (L4L.warmupRequest "/user/earn-youtube.php").timeout = none ∧
    ¬ (L4L.warmupRequest "/user/earn-youtube.php").timeout = some 30 ∧
    L4L.warmup (HttpOutcome.exn : HttpOutcome Response) = Except.error () :=
  ⟨rfl, fun h => Option.noConfusion h, rfl⟩

/-- C4 (amended): the five data operations — `get_user_info`, `get_tasks`,
`start_task`, `check_url`, `validate` — each set a 30-second timeout on
their HTTP request and catch any transport exception at the call site,
turning it into a soft failure (`none`/`false`); `warmup`, by contrast,
sets no timeout and lets transport exceptions propagate to its caller. -/
theorem claim_C4 :
    L4L.getUserInfoRequest.timeout = some 30 ∧
    (∀ feature : String, (L4L.getTasksRequest feature).timeout = some 30) ∧
    (∀ idlink taskId feature ts_ms : String,
      (L4L.startTaskRequest idlink taskId feature ts_ms).timeout = some 30) ∧
    L4L.checkUrlRequest.timeout = some 30 ∧
    L4L.validateRequest.timeout = some 30 ∧
    L4L.get_user_info HttpOutcome.exn = none ∧
    L4L.get_tasks HttpOutcome.exn = none ∧
    L4L.start_task HttpOutcome.exn = false ∧
    L4L.check_url HttpOutcome.exn = false ∧
    L4L.validate HttpOutcome.exn = none ∧
    (∀ earn_path : String, (L4L.warmupRequest earn_path).timeout = none) ∧
    L4L.warmup (HttpOutcome.exn : HttpOutcome Response) = Except.error () :=
  ⟨rfl, fun _ => rfl, fun _ _ _ _ => rfl, rfl, rfl, rfl, rfl, rfl, rfl, rfl,
    fun _ => rfl, rfl⟩

/-- Counterexample for C5: a response body that contains both the
`"success":true` marker and a `"credits"` field, for which `validate`
nevertheless returns nothing because the HTTP response is not OK — the
claim omits `validate`'s `resp.ok` condition. -/
theorem claim_C5_cex :
    pyHasSub "\"success\":true" "\x7b\"success\":true,\"credits\":\"125\"\x7d" = true ∧
    pyHasSub "\"credits\"" "\x7b\"success\":true,\"credits\":\"125\"\x7d" = true ∧
    L4L.validate (HttpOutcome.resp
      ⟨false, "\x7b\"success\":true,\"credits\":\"125\"\x7d"⟩) = none := by
  refine ⟨by decide, by decide, ?_⟩
  rfl

/-- C5 (amended): `check_url` returns true iff the HTTP response is OK and
its body contains the literal substring `http`, and false (not an
exception) on transport failure; `validate` returns the credit balance
extracted by the `"credits":"(\d+)"` pattern search when the HTTP response
is OK and its body contains both the `"success":true` marker and a
`"credits"` field, and returns nothing (not an exception) when the body
lacks the success marker or the request fails; every extracted balance is
a nonempty digit string preceded in the body by the literal
`"credits":"`. -/
theorem claim_C5 :
    (∀ r : Response, L4L.check_url (HttpOutcome.resp r) =
      (r.ok && pyHasSub "http" r.text)) ∧
    L4L.check_url HttpOutcome.exn = false ∧
    (∀ r : Response, r.ok = true → pyHasSub "\"success\":true" r.text = true →
      pyHasSub "\"credits\"" r.text = true →
      L4L.validate (HttpOutcome.resp r) =
        (searchCredits r.text.data).map (fun ds => String.mk ds)) ∧
    (∀ r : Response, pyHasSub "\"success\":true" r.text = false →
      L4L.validate (HttpOutcome.resp r) = none) ∧
    L4L.validate HttpOutcome.exn = none ∧
    (∀ t ds : List Char, searchCredits t = some ds →
      ds ≠ [] ∧ ds.all Char.isDigit = true ∧
        ∃ pre suf, t = pre ++ creditsPat ++ ds ++ '"' :: suf) := by
  refine ⟨fun r => rfl, rfl, ?_, ?_, rfl, searchCredits_sound⟩
  · intro r h1 h2 h3
    simp [L4L.validate, h1, h2, h3]
  · intro r h
    simp [L4L.validate, h]

/-- Witness for C5: a literal success body yields the parsed balance; a
body without the marker yields nothing; an OK body whose credits field is
truncated before the closing quote yields nothing, and one whose first
credits field is not digits-then-quote yields the later, well-formed one —
both matching `re.search`; the extractor's output is the nonempty digit
string `125`. -/
theorem claim_C5_witness :
    L4L.validate (HttpOutcome.resp
      ⟨true, "\x7b\"success\":true,\"credits\":\"125\"\x7d"⟩) = some "125" ∧
    L4L.validate (HttpOutcome.resp ⟨true, "\x7b\"success\":false\x7d"⟩) = none ∧
    L4L.validate (HttpOutcome.resp
      ⟨true, "\x7b\"success\":true,\"credits\":\"125"⟩) = none ∧
    L4L.validate (HttpOutcome.resp
      ⟨true, "\x7b\"success\":true,\"credits\":\"12X \"credits\":\"34\"\x7d"⟩) =
      some "34" ∧
    (['1', '2', '5'] : List Char) ≠ [] := by
  refine ⟨?_, ?_, ?_, ?_, ?_⟩
  · rw [claim_C5.2.2.1 ⟨true, "\x7b\"success\":true,\"credits\":\"125\"\x7d"⟩
      (by decide) (by decide) (by decide)]
    decide
  · exact claim_C5.2.2.2.1 ⟨true, "\x7b\"success\":false\x7d"⟩ (by decide)
  · rw [claim_C5.2.2.1 ⟨true, "\x7b\"success\":true,\"credits\":\"125"⟩
      (by decide) (by decide) (by decide)]
    decide
  · rw [claim_C5.2.2.1 ⟨true, "\x7b\"success\":true,\"credits\":\"12X \"credits\":\"34\"\x7d"⟩
      (by decide) (by decide) (by decide)]
    decide
  · exact (claim_C5.2.2.2.2.2 "\"credits\":\"125\"".data ['1', '2', '5'] (by decide)).1

/-- C10: `start_task` returns true exactly when the request completed and
the body contains the literal `"success":true`, with no `resp.ok` check —
the result is the same whether or not the response is HTTP-OK — and any
exception during the request yields false. -/
theorem claim_C10 :
    (∀ r : Response, L4L.start_task (HttpOutcome.resp r) =
      pyHasSub "\"success\":true" r.text) ∧
    (∀ text : String, L4L.start_task (HttpOutcome.resp ⟨false, text⟩) =
      L4L.start_task (HttpOutcome.resp ⟨true, text⟩)) ∧
    L4L.start_task HttpOutcome.exn = false :=
  ⟨fun _ => rfl, fun _ => rfl, rfl⟩

/-- C6: the Instagram follow action returns false with no follow request
sent whenever the profile-page fetch fails, the page lacks a
`"profilePage_<digits>"` identifier, or the cookie string lacks a
`csrftoken=...;` attribute; when both extractions succeed it sends the
follow POST and succeeds iff the response is HTTP-OK (false, not an
exception, when the POST itself fails). -/
theorem claim_C6 (u ck : String) (w : IgWorld) :
    (w.profileResp = none → Actions.instagram_follow u ck w = ⟨false, false⟩) ∧
    (∀ html, w.profileResp = some html → searchProfileId html.data = none →
      Actions.instagram_follow u ck w = ⟨false, false⟩) ∧
    (searchCsrf ck.data = none → Actions.instagram_follow u ck w = ⟨false, false⟩) ∧
    (∀ html pid tok, w.profileResp = some html → searchProfileId html.data = some pid →
      searchCsrf ck.data = some tok → w.followResp = none →
      Actions.instagram_follow u ck w = ⟨false, true⟩) ∧
    (∀ html pid tok rfOk, w.profileResp = some html →
      searchProfileId html.data = some pid → searchCsrf ck.data = some tok →
      w.followResp = some rfOk →
      Actions.instagram_follow u ck w = ⟨rfOk, true⟩) := by
  refine ⟨?_, ?_, ?_, ?_, ?_⟩
  · intro h
    simp [Actions.instagram_follow, h]
  · intro html h1 h2
    simp [Actions.instagram_follow, h1, h2]
  · intro h
    rcases hw : w.profileResp with _ | html
    · simp [Actions.instagram_follow, hw]
    · rcases hp : searchProfileId html.data with _ | pid
      · simp [Actions.instagram_follow, hw, hp]
      · simp [Actions.instagram_follow, hw, hp, h]
  · intro html pid tok h1 h2 h3 h4
    simp [Actions.instagram_follow, h1, h2, h3, h4]
  · intro html pid tok rfOk h1 h2 h3 h4
    simp [Actions.instagram_follow, h1, h2, h3, h4]

/-- Witness for C6: a page with an identifier and a cookie with a token
lead to a sent, successful follow; a page without the identifier, or a
cookie without the token, give a hard failure with no request sent. -/
theorem claim_C6_witness :
    Actions.instagram_follow "user1" "csrftoken=TOK;"
      ⟨some "x \"profilePage_123\" y", some true⟩ = ⟨true, true⟩ ∧
    Actions.instagram_follow "user1" "csrftoken=TOK;"
      ⟨some "no identifier here", some true⟩ = ⟨false, false⟩ ∧
    Actions.instagram_follow "user1" "sessionid=abc"
      ⟨some "x \"profilePage_123\" y", some true⟩ = ⟨false, false⟩ :=
  ⟨(claim_C6 "user1" "csrftoken=TOK;" ⟨some "x \"profilePage_123\" y", some true⟩).2.2.2.2
      "x \"profilePage_123\" y" ['1', '2', '3'] ['T', 'O', 'K'] true rfl
      (by decide) (by decide) rfl,
    (claim_C6 "user1" "csrftoken=TOK;" ⟨some "no identifier here", some true⟩).2.1
      "no identifier here" rfl (by decide),
    (claim_C6 "user1" "sessionid=abc" ⟨some "x \"profilePage_123\" y", some true⟩).2.2.1
      (by decide)⟩

/-- C7: within one task listing, once a task reaches a successful
validation the pass stops — the result is the same as if the remaining
tasks were absent — with the balance updated to the validated value, the
success panel as the last event, and control falling through to the
inter-cycle countdown. -/
theorem claim_C7 (feature vrsta : String) (delay : Int)
    (pre post : List TaskItem) (idlink taskId code3 : String) (n : Nat)
    (hpre : ∀ x ∈ pre, validatesB x = false) :
    processTasks feature vrsta
        (pre ++ TaskItem.complete idlink taskId code3 ⟨true, true, true, some n⟩ :: post) =
      processTasks feature vrsta
        (pre ++ [TaskItem.complete idlink taskId code3 ⟨true, true, true, some n⟩]) ∧
    (processTasks feature vrsta
        (pre ++ TaskItem.complete idlink taskId code3 ⟨true, true, true, some n⟩ ::
          post)).processedAny = true ∧
    (processTasks feature vrsta
        (pre ++ TaskItem.complete idlink taskId code3 ⟨true, true, true, some n⟩ ::
          post)).credits = some n ∧
    (processTasks feature vrsta
        (pre ++ TaskItem.complete idlink taskId code3 ⟨true, true, true, some n⟩ ::
          post)).events =
      pre.flatMap skipEvents ++
        [Event.sleep 10, Event.success feature vrsta (targetUrl feature idlink) n] ∧
    loopIter feature vrsta delay
        (some (pre ++ TaskItem.complete idlink taskId code3 ⟨true, true, true, some n⟩ ::
          post)) =
      (processTasks feature vrsta
        (pre ++ TaskItem.complete idlink taskId code3 ⟨true, true, true, some n⟩ ::
          post)).events ++ countdown delay.toNat := by
  have hmain := processTasks_append_skip feature vrsta pre
    (TaskItem.complete idlink taskId code3 ⟨true, true, true, some n⟩ :: post) hpre
  rw [processTasks_validated] at hmain
  have hone := processTasks_append_skip feature vrsta pre
    [TaskItem.complete idlink taskId code3 ⟨true, true, true, some n⟩] hpre
  rw [processTasks_validated] at hone
  refine ⟨by rw [hmain, hone], by rw [hmain], by rw [hmain], by rw [hmain], ?_⟩
  rw [loopIter_some, hmain]
  simp

/-- Witness for C7: a concrete listing in which the second task validates
for 125 credits after a skipped malformed first task; the trailing task is
never reached. -/
theorem claim_C7_witness :
    (processTasks "youtube" "like"
        ([TaskItem.incomplete] ++ TaskItem.complete "abc" "t1" "c1"
          ⟨true, true, true, some 125⟩ :: [TaskItem.incomplete])).credits = some 125 ∧
    (processTasks "youtube" "like"
        ([TaskItem.incomplete] ++ TaskItem.complete "abc" "t1" "c1"
          ⟨true, true, true, some 125⟩ :: [TaskItem.incomplete])).processedAny = true ∧
    processTasks "youtube" "like"
        ([TaskItem.incomplete] ++ TaskItem.complete "abc" "t1" "c1"
          ⟨true, true, true, some 125⟩ :: [TaskItem.incomplete]) =
      processTasks "youtube" "like"
        ([TaskItem.incomplete] ++ [TaskItem.complete "abc" "t1" "c1"
          ⟨true, true, true, some 125⟩]) :=
  ⟨(claim_C7 "youtube" "like" 60 [TaskItem.incomplete] [TaskItem.incomplete]
      "abc" "t1" "c1" 125 (by decide)).2.2.1,
    (claim_C7 "youtube" "like" 60 [TaskItem.incomplete] [TaskItem.incomplete]
      "abc" "t1" "c1" 125 (by decide)).2.1,
    (claim_C7 "youtube" "like" 60 [TaskItem.incomplete] [TaskItem.incomplete]
      "abc" "t1" "c1" 125 (by decide)).1⟩

/-- C8: if the startup user-info call succeeds the run proceeds with no
prompt; if it fails the program prompts exactly once and retries exactly
once (two calls in total); if the retry also fails it gives up with no
further retries. -/
theorem claim_C8 (o1 o2 : HttpOutcome UserResponse) :
    (∀ i, L4L.get_user_info o1 = some i → startup o1 o2 = ⟨true, 0, 1⟩) ∧
    (∀ i, L4L.get_user_info o1 = none → L4L.get_user_info o2 = some i →
      startup o1 o2 = ⟨true, 1, 2⟩) ∧
    (L4L.get_user_info o1 = none → L4L.get_user_info o2 = none →
      startup o1 o2 = ⟨false, 1, 2⟩) := by
  refine ⟨?_, ?_, ?_⟩
  · intro i h
    simp [startup, h]
  · intro i h1 h2
    simp [startup, h1, h2]
  · intro h1 h2
    simp [startup, h1, h2]

/-- Witness for C8: a failed first call followed by a successful retry
proceeds after one prompt and two calls; two failed calls give up. -/
theorem claim_C8_witness :
    startup (HttpOutcome.exn : HttpOutcome UserResponse)
      (HttpOutcome.resp ⟨true, "\x7b\"success\":true\x7d", some ⟨"alice", 120⟩⟩) =
      ⟨true, 1, 2⟩ ∧
    startup (HttpOutcome.exn : HttpOutcome UserResponse)
      (HttpOutcome.resp ⟨false, "err", none⟩) = ⟨false, 1, 2⟩ :=
  ⟨(claim_C8 HttpOutcome.exn
      (HttpOutcome.resp ⟨true, "\x7b\"success\":true\x7d", some ⟨"alice", 120⟩⟩)).2.1
      ⟨"alice", 120⟩ rfl (by decide),
    (claim_C8 HttpOutcome.exn (HttpOutcome.resp ⟨false, "err", none⟩)).2.2
      rfl rfl⟩

/-- C9: the delay defaults to 60 when the input does not parse as an
integer; after a pass in which some task was validated the loop emits the
one-second countdown of the configured delay, rendering the remaining
minutes and seconds before each tick; after a pass in which nothing was
validated (and likewise when the listing is missing) it sleeps a flat 10
seconds; each loop iteration consumes a fresh task-listing fetch. -/
theorem claim_C9 :
    (∀ s : String, pyInt s = none → delayOf s = 60) ∧
    (∀ (feature vrsta : String) (delay : Int) (ts : List TaskItem),
      (processTasks feature vrsta ts).processedAny = true →
      loopIter feature vrsta delay (some ts) =
        (processTasks feature vrsta ts).events ++ countdown delay.toNat) ∧
    (∀ (feature vrsta : String) (delay : Int) (ts : List TaskItem),
      (processTasks feature vrsta ts).processedAny = false →
      loopIter feature vrsta delay (some ts) =
        (processTasks feature vrsta ts).events ++ [Event.sleep 10]) ∧
    (∀ (feature vrsta : String) (delay : Int),
      loopIter feature vrsta delay none = [Event.sleep 10]) ∧
    (∀ n : Nat, countdown n = (List.range n).reverse.flatMap
      (fun k => [Event.tick ((k + 1) / 60) ((k + 1) % 60), Event.sleep 1])) ∧
    (∀ (feature vrsta : String) (delay : Int) (t : Option (List TaskItem))
      (fetches : List (Option (List TaskItem))),
      runLoop feature vrsta delay (t :: fetches) =
        loopIter feature vrsta delay t ++ runLoop feature vrsta delay fetches) := by
  refine ⟨?_, ?_, ?_, fun _ _ _ => rfl, countdown_eq, fun _ _ _ _ _ => rfl⟩
  · intro s h
    simp [delayOf, h]
  · intro feature vrsta delay ts h
    rw [loopIter_some, h]
    simp
  · intro feature vrsta delay ts h
    rw [loopIter_some, h]
    simp

/-- Witness for C9: a non-numeric delay input defaults to 60; a listing
whose only task validates leads into the countdown; a listing in which
nothing validates leads to the flat 10-second sleep. -/
theorem claim_C9_witness :
    delayOf "every minute" = 60 ∧
    loopIter "youtube" "like" 2
        (some [TaskItem.complete "abc" "t1" "c1" ⟨true, true, true, some 125⟩]) =
      (processTasks "youtube" "like"
        [TaskItem.complete "abc" "t1" "c1" ⟨true, true, true, some 125⟩]).events ++
        countdown 2 ∧
    loopIter "youtube" "like" 2 (some [TaskItem.incomplete]) =
      (processTasks "youtube" "like" [TaskItem.incomplete]).events ++ [Event.sleep 10] :=
  ⟨claim_C9.1 "every minute" (by decide),
    claim_C9.2.1 "youtube" "like" 2
      [TaskItem.complete "abc" "t1" "c1" ⟨true, true, true, some 125⟩] (by decide),
    claim_C9.2.2.1 "youtube" "like" 2 [TaskItem.incomplete] (by decide)⟩
